import Mathlib

/-!
Shallow embedding of the `SaraNcpClient` cellular NCP driver
(`sara_ncp_client.cpp`) and proofs about its registration tracking,
connection state machine, power sequencing, and data-channel flow control.

External collaborators (the AT command/response engine, the GSM 07.10
multiplexer, the GPIO/serial HAL) are modelled as oracles: parse results,
command result codes and the power-good input are supplied as parameters,
while all driver logic is translated from the source.
-/

namespace SaraNcp

/-- NCP power state machine values, from `NcpState` in the source. -/
inductive NcpState
| off
| on
| disabled
deriving DecidableEq

/-- NCP connection state machine values, from `NcpConnectionState`. -/
inductive NcpConnectionState
| disconnected
| connecting
| connected
deriving DecidableEq

/-- Per-technology-family registration state, from `RegistrationState`. -/
inductive RegistrationState
| notRegistered
| registered
deriving DecidableEq

/-- The `CellularGlobalIdentity` record: country/network codes, area code, cell id and
the flags byte; `location_area_code` is `uint16_t` and `cell_id` is
`uint32_t` in the source. -/
structure CellularGlobalIdentity where
  mobile_country_code : Nat
  mobile_network_code : Nat
  location_area_code : Nat
  cell_id : Nat
  cgi_flags : Nat
deriving DecidableEq

/-- Hardware oracle: the VINT (power-good) input as a function of the
millisecond clock, and whether the last reset reason was a power-down or
brownout condition (`HAL_Core_Get_Last_Reset_Info`). -/
structure HW where
  vint : Nat → Bool
  lastResetWasPowerLoss : Bool

/-- The mutable fields of `SaraNcpClient`, plus the HAL-visible observables:
the clock `t` (milliseconds since boot), counts of power and reset pulses,
muxer stops and PPP channel open attempts, sizes of writes forwarded to the
muxer data channel, and the pin/stream enable flags. -/
structure Client where
  ncpState_ : NcpState
  prevNcpState_ : NcpState
  connState_ : NcpConnectionState
  creg_ : RegistrationState
  cgreg_ : RegistrationState
  cereg_ : RegistrationState
  regStartTime_ : Nat
  regCheckTime_ : Nat
  powerOnTime_ : Nat
  registeredTime_ : Nat
  memoryIssuePresent_ : Bool
  ready_ : Bool
  registrationTimeout_ : Nat
  parserError_ : Int
  cgi_ : CellularGlobalIdentity
  act_ : Int
  bytesInWindow_ : Nat
  lastWindow_ : Nat
  fwVersion_ : Int
  isR410 : Bool
  t : Nat
  pwrPulses : Nat
  rstPulses : Nat
  muxStops : Nat
  pppOpens : Nat
  muxWrites : List Nat
  bufen : Bool
  serialEnabled : Bool
  muxStreamEnabled : Bool
  offOnceDone : Bool
deriving DecidableEq

/-- Modulus of `system_tick_t` millisecond arithmetic (2^32). -/
def W : Nat := 4294967296

/-- Wrapping 32-bit subtraction `a - b`, as computed by unsigned C
arithmetic on `system_tick_t`. -/
def wsub (a b : Nat) : Nat := (a % W + (W - b % W)) % W

/-- Sentinel for an unset location area code (`max` of `uint16_t`). -/
def LAC_UNSET : Nat := 65535

/-- Sentinel for an unset cell id (`max` of `uint32_t`). -/
def CID_UNSET : Nat := 4294967295

def REGISTRATION_CHECK_INTERVAL : Nat := 15000

def REGISTRATION_TIMEOUT : Nat := 600000

def UBLOX_NCP_R4_BYTES_PER_WINDOW_THRESHOLD : Nat := 512

def UBLOX_NCP_R4_WINDOW_SIZE_MS : Nat := 50

def UBLOX_NCP_R4_APP_FW_VERSION_NO_HW_FLOW_CONTROL_MAX : Int := 203

def UBLOX_NCP_R4_APP_FW_VERSION_MEMORY_LEAK_ISSUE : Int := 200

def SYSTEM_ERROR_NONE : Int := 0

def SYSTEM_ERROR_INVALID_STATE : Int := -210

def SYSTEM_ERROR_BAD_DATA : Int := -270

def SYSTEM_ERROR_AT_NOT_OK : Int := -1200

def SYSTEM_ERROR_AT_RESPONSE_UNEXPECTED : Int := -1210

/-- Error tag used by the muxer for a remote flow-control rejection
(`gsm0710::GSM0710_ERROR_FLOW_CONTROL`); its concrete value is internal to
the external muxer, any fixed negative stands for it. -/
def GSM0710_ERROR_FLOW_CONTROL : Int := -8

/-- Final result code `AtResponse::OK` of the external AT engine. -/
def AT_RESPONSE_OK : Int := 0

def CGI_FLAG_TWO_DIGIT_MNC : Nat := 1

/-- Embeds `SaraNcpClient::connectionState(NcpConnectionState)` (the setter).
`openOk` is an oracle for the result of `muxer_.openChannel` on the PPP
data channel; a channel open attempt is counted in `pppOpens`. -/
def connectionStateSet (openOk : Bool) (s : Client) (st : NcpConnectionState) : Client :=
  if s.ncpState_ = NcpState.disabled then s
  else if s.connState_ = st then s
  else
    let s1 := { s with connState_ := st }
    if st = NcpConnectionState.connected then
      let s2 := { s1 with pppOpens := s1.pppOpens + 1 }
      if openOk then s2
      else { s2 with ready_ := false, connState_ := NcpConnectionState.disconnected }
    else s1

/-- Embeds `SaraNcpClient::ncpState(NcpState)` (the setter). -/
def ncpStateSet (openOk : Bool) (s : Client) (st : NcpState) : Client :=
  if s.ncpState_ = NcpState.disabled then s
  else
    let s1 := if st = NcpState.off
      then connectionStateSet openOk { s with ready_ := false } NcpConnectionState.disconnected
      else s
    if s1.ncpState_ = st then s1 else { s1 with ncpState_ := st }

/-- The combined registration condition used by `checkRegistrationState`:
(circuit-switched and packet-switched registered) or LTE registered. -/
def regCondition (s : Client) : Prop :=
  (s.creg_ = RegistrationState.registered ∧ s.cgreg_ = RegistrationState.registered) ∨
    s.cereg_ = RegistrationState.registered

instance (s : Client) : Decidable (regCondition s) := by
  unfold regCondition; infer_instance

/-- Embeds `SaraNcpClient::checkRegistrationState`. -/
def checkRegistrationState (openOk : Bool) (s : Client) : Client :=
  if s.connState_ ≠ NcpConnectionState.disconnected then
    if regCondition s then
      let s1 := if s.memoryIssuePresent_ ∧ s.connState_ ≠ NcpConnectionState.connected
        then { s with registeredTime_ := s.t % W } else s
      connectionStateSet openOk s1 NcpConnectionState.connected
    else if s.connState_ = NcpConnectionState.connected then
      let s1 := connectionStateSet openOk s NcpConnectionState.connecting
      { s1 with regStartTime_ := s1.t % W, regCheckTime_ := s1.t % W, registeredTime_ := 0 }
    else s
  else s

/-- Access technologies of the GSM/UMTS (circuit+packet switched) family:
`GSM .. UTRAN_HSDPA_HSUPA`, codes 0-6. -/
def isGsmRat (a : Int) : Prop := 0 ≤ a ∧ a ≤ 6

instance (a : Int) : Decidable (isGsmRat a) := by
  unfold isGsmRat; infer_instance

/-- Access technologies of the LTE family: `LTE`, `LTE_CAT_M1`,
`LTE_NB_IOT`, codes 7-9. -/
def isLteRat (a : Int) : Prop := a = 7 ∨ a = 8 ∨ a = 9

instance (a : Int) : Decidable (isLteRat a) := by
  unfold isLteRat; infer_instance

/-- Body of the `+CREG` URC handler, entered after the two `sscanf` attempts on
the captured line: `r` is the number of fields converted and `v0..v3` the
parsed values (status, lac, ci, act). -/
def cregUrc (openOk : Bool) (s : Client) (r v0 v1 v2 _v3 : Nat) : Client × Int :=
  if r < 1 then (s, SYSTEM_ERROR_AT_RESPONSE_UNEXPECTED)
  else
    let s1 := { s with creg_ := if v0 = 1 ∨ v0 = 5 then RegistrationState.registered
      else RegistrationState.notRegistered }
    let s2 := checkRegistrationState openOk s1
    let cgi1 := { s2.cgi_ with location_area_code := v1 % 65536, cell_id := v2 % W }
    let s3 := if 3 ≤ r ∧ s2.cgi_.location_area_code = LAC_UNSET ∧ s2.cgi_.cell_id = CID_UNSET
      then { s2 with cgi_ := cgi1 }
      else s2
    (s3, 0)

/-- Body of the `+CGREG` URC handler, after parsing; overwrites the identity
fields when the reported (or current) access technology is in the GSM/UMTS
family. -/
def cgregUrc (openOk : Bool) (s : Client) (r v0 v1 v2 v3 : Nat) : Client × Int :=
  if r < 1 then (s, SYSTEM_ERROR_AT_RESPONSE_UNEXPECTED)
  else
    let s1 := { s with cgreg_ := if v0 = 1 ∨ v0 = 5 then RegistrationState.registered
      else RegistrationState.notRegistered }
    let s2 := checkRegistrationState openOk s1
    let rat : Int := if 4 ≤ r then (v3 : Int) else s2.act_
    let cgi1 := { s2.cgi_ with location_area_code := v1 % 65536, cell_id := v2 % W }
    let s3 := if 3 ≤ r ∧ isGsmRat rat
      then { s2 with cgi_ := cgi1 }
      else s2
    (s3, 0)

/-- Body of the `+CEREG` URC handler, after parsing; overwrites the identity
fields when the reported (or current) access technology is in the LTE
family. -/
def ceregUrc (openOk : Bool) (s : Client) (r v0 v1 v2 v3 : Nat) : Client × Int :=
  if r < 1 then (s, SYSTEM_ERROR_AT_RESPONSE_UNEXPECTED)
  else
    let s1 := { s with cereg_ := if v0 = 1 ∨ v0 = 5 then RegistrationState.registered
      else RegistrationState.notRegistered }
    let s2 := checkRegistrationState openOk s1
    let rat : Int := if 4 ≤ r then (v3 : Int) else s2.act_
    let cgi1 := { s2.cgi_ with location_area_code := v1 % 65536, cell_id := v2 % W }
    let s3 := if 3 ≤ r ∧ isLteRat rat
      then { s2 with cgi_ := cgi1 }
      else s2
    (s3, 0)

/-- Embeds `SaraNcpClient::disable`: flips atomic state only; records the previous
state and disables the serial and muxed streams. -/
def disable (s : Client) : Client :=
  if s.ncpState_ = NcpState.disabled then s
  else
    let s1 := { s with prevNcpState_ := s.ncpState_, ncpState_ := NcpState.disabled }
    { s1 with serialEnabled := false, muxStreamEnabled := false }

/-- The VINT poll loop of `modemPowerOn`/`modemPowerOff`: read the pin,
break when it matches `target`, otherwise delay 100 ms; up to `fuel`
iterations. Returns the clock after the loop and whether the target level
was seen. -/
def pollVint (hw : HW) : Nat → Bool → Nat → Nat × Bool
  | 0, _, t => (t, false)
  | fuel+1, target, t =>
    if hw.vint t = target then (t, true)
    else pollVint hw fuel target (t + 100)

/-- The wait loop of `SaraNcpClient::waitForPowerOff` (the aging guard):
breaks 20 s after the last registration if one is recorded, else 30 s
after power-on, else when VINT drops; 100 ms granularity. `fuel` bounds
the iteration count (400 iterations cover both deadlines). Returns the
clock after the loop. -/
def wfpoLoop (hw : HW) : Nat → Nat → Nat → Nat → Nat
  | 0, t, _, _ => t
  | fuel+1, t, regT, pwrT =>
    if (regT ≠ 0 ∧ 20000 ≤ wsub t regT) ∨
        (regT = 0 ∧ pwrT ≠ 0 ∧ 30000 ≤ wsub t pwrT) then t
    else
      let t1 := t + 100
      if hw.vint t1 = true then wfpoLoop hw fuel t1 regT pwrT else t1

/-- Embeds `SaraNcpClient::waitForPowerOff`: runs the aging-guard wait loop and
clears its timers on exit regardless of outcome. -/
def waitForPowerOff (hw : HW) (s : Client) : Client :=
  let pwrT := if s.powerOnTime_ = 0 then s.t % W else s.powerOnTime_
  let t1 := wfpoLoop hw 400 s.t s.registeredTime_ pwrT
  { s with t := t1, registeredTime_ := 0, powerOnTime_ := 0 }

/-- Embeds `SaraNcpClient::modemPowerOn`: checks VINT first; if the modem is off,
issues the chip-family pulse (50 us for U201 without advancing the
millisecond clock, 150 ms for R410) and polls VINT up to 10 times at
100 ms. -/
def modemPowerOnAux (hw : HW) (s : Client) : Client :=
  if hw.vint s.t = true then s
  else
    let sp := if s.isR410 = true
      then { s with t := s.t + 150, pwrPulses := s.pwrPulses + 1 }
      else { s with pwrPulses := s.pwrPulses + 1 }
    let pv := pollVint hw 10 true sp.t
    { sp with t := pv.1 }

/-- The final `CHECK_TRUE(modemPowerState(), SYSTEM_ERROR_INVALID_STATE)`
of `modemPowerOn`, re-reading the pin after the body above. -/
def modemPowerOn (hw : HW) (s : Client) : Client × Int :=
  if hw.vint (modemPowerOnAux hw s).t = true then (modemPowerOnAux hw s, SYSTEM_ERROR_NONE)
  else (modemPowerOnAux hw s, SYSTEM_ERROR_INVALID_STATE)

/-- Embeds `SaraNcpClient::modemPowerOff`: the run-once startup guard (delaying
to 5 s of uptime for U201 after a power-loss reset), then if the modem is
on: disable the voltage translator, run the aging guard for the R410
memory-issue firmware, issue the chip-family pulse (1.5 s / 1.6 s) and
poll VINT for de-assertion up to 100 times at 100 ms. The run-once
startup guard comes first. -/
def powerOffOnce (hw : HW) (s : Client) : Client :=
  if s.offOnceDone = false then
    let sa := { s with offOnceDone := true }
    if s.isR410 = false ∧ hw.vint s.t = true ∧ hw.lastResetWasPowerLoss = true ∧
        s.t % W < 5000
      then { sa with t := sa.t + (5000 - sa.t % W) }
      else sa
  else s

/-- The pulse-and-poll part of `modemPowerOff`, reached when the modem is
powered: disable the voltage translator, run the aging guard on the
memory-issue R410 firmware, issue the chip-family pulse and poll VINT for
de-assertion. -/
def powerOffPulse (hw : HW) (s : Client) : Client :=
  let sb := { s with bufen := false }
  let sc :=
    if sb.isR410 = false then { sb with t := sb.t + 1500, pwrPulses := sb.pwrPulses + 1 }
    else
      let sw := if sb.memoryIssuePresent_ = true then waitForPowerOff hw sb else sb
      { sw with t := sw.t + 1600, pwrPulses := sw.pwrPulses + 1 }
  let pv := pollVint hw 100 false sc.t
  { sc with t := pv.1 }

def modemPowerOffAux (hw : HW) (s : Client) : Client :=
  if hw.vint (powerOffOnce hw s).t = true then powerOffPulse hw (powerOffOnce hw s)
  else powerOffOnce hw s

/-- The final `CHECK_TRUE(!modemPowerState(), SYSTEM_ERROR_INVALID_STATE)`
of `modemPowerOff`, re-reading the pin after the body above. -/
def modemPowerOff (hw : HW) (s : Client) : Client × Int :=
  if hw.vint (modemPowerOffAux hw s).t = false then (modemPowerOffAux hw s, SYSTEM_ERROR_NONE)
  else (modemPowerOffAux hw s, SYSTEM_ERROR_INVALID_STATE)

/-- Embeds `SaraNcpClient::modemHardReset`: requires the modem powered; U201 gets
a 50 ms reset pulse (restarts under power, `powerOff` ignored); R410 gets
a 10 s pulse after the aging guard, powers itself off, and is re-powered
when `powerOff` is false. -/
def modemHardReset (hw : HW) (powerOff : Bool) (s : Client) : Client × Int :=
  if hw.vint s.t = false then (s, SYSTEM_ERROR_INVALID_STATE)
  else if s.isR410 = false then
    ({ s with rstPulses := s.rstPulses + 1, t := s.t + 50 + 1000 }, SYSTEM_ERROR_NONE)
  else
    let sw := if s.memoryIssuePresent_ = true then waitForPowerOff hw s else s
    let s1 := { sw with rstPulses := sw.rstPulses + 1, t := sw.t + 10000 + 1000 }
    if powerOff = false then modemPowerOn hw s1 else (s1, SYSTEM_ERROR_NONE)

/-- Embeds `SaraNcpClient::off`: fails only when disabled; stops the muxer,
disables the voltage translator, powers the modem down (result ignored),
clears readiness and unconditionally transitions to `OFF`, returning 0. -/
def off (hw : HW) (openOk : Bool) (s : Client) : Client × Int :=
  if s.ncpState_ = NcpState.disabled then (s, SYSTEM_ERROR_INVALID_STATE)
  else
    let s2 := { s with muxStops := s.muxStops + 1, bufen := false }
    let s4 := { (modemPowerOff hw s2).1 with ready_ := false }
    (ncpStateSet openOk s4 NcpState.off, SYSTEM_ERROR_NONE)

/-- Embeds `SaraNcpClient::on`: invalid-state when disabled, no-op when already
on; otherwise powers the modem and runs the boot sequence. The boot
sequence `waitReady` is driven by the external AT engine and is abstracted
as `waitReadyFn`. -/
def onFn (hw : HW) (waitReadyFn : Client → Client × Int) (s : Client) : Client × Int :=
  if s.ncpState_ = NcpState.disabled then (s, SYSTEM_ERROR_INVALID_STATE)
  else if s.ncpState_ = NcpState.on then (s, SYSTEM_ERROR_NONE)
  else
    let p := modemPowerOn hw s
    if p.2 < 0 then p
    else
      let q := waitReadyFn p.1
      if q.2 < 0 then q else (q.1, SYSTEM_ERROR_NONE)

/-- Embeds `SaraNcpClient::enable`: no-op unless disabled; re-enables the serial
and muxed streams, restores the saved state and immediately runs `off()`,
returning 0. -/
def enable (hw : HW) (openOk : Bool) (s : Client) : Client × Int :=
  if s.ncpState_ ≠ NcpState.disabled then (s, SYSTEM_ERROR_NONE)
  else
    let s0 := { s with serialEnabled := true, muxStreamEnabled := true }
    let s1 := { s0 with ncpState_ := s.prevNcpState_ }
    ((off hw openOk s1).1, SYSTEM_ERROR_NONE)

/-- Embeds `SaraNcpClient::setRegistrationTimeout`. -/
def setRegistrationTimeout (s : Client) (timeout : Nat) : Client × Int :=
  ({ s with registrationTimeout_ := max timeout REGISTRATION_TIMEOUT }, SYSTEM_ERROR_NONE)

/-- Embeds `SaraNcpClient::dataChannelWrite`: for the R410 firmware range without
hardware flow control, a 50 ms window with a cumulative byte counter;
writes arriving while the counter is at or above the 512-byte threshold
are dropped and reported as success; a muxer flow-control rejection is
mapped to success; any other write error triggers `disable()`.
`writeResult` is the oracle for `muxer_.writeChannel`; sizes of writes
actually forwarded to the muxer are appended to `muxWrites`. -/
def dataChannelWrite (s : Client) (writeResult : Int) (size : Nat) : Client × Int :=
  let limited := s.isR410 = true ∧ s.fwVersion_ ≤ UBLOX_NCP_R4_APP_FW_VERSION_NO_HW_FLOW_CONTROL_MAX
  let s1 := if limited ∧ UBLOX_NCP_R4_WINDOW_SIZE_MS ≤ wsub s.t s.lastWindow_
    then { s with lastWindow_ := s.t % W, bytesInWindow_ := 0 } else s
  if limited ∧ UBLOX_NCP_R4_BYTES_PER_WINDOW_THRESHOLD ≤ s1.bytesInWindow_ then (s1, 0)
  else
    let err := if writeResult = GSM0710_ERROR_FLOW_CONTROL then 0 else writeResult
    let s2 := { s1 with muxWrites := s1.muxWrites ++ [size] }
    let s3 := if limited then
        let s2a := { s2 with bytesInWindow_ := s2.bytesInWindow_ + size }
        if UBLOX_NCP_R4_BYTES_PER_WINDOW_THRESHOLD ≤ s2a.bytesInWindow_
          then { s2a with lastWindow_ := s2a.t % W } else s2a
      else s2
    if err ≠ 0 then (disable s3, err) else (s3, 0)

/-- C `atoi` restricted to the digit-only strings produced by the
`%3[0-9]` scan format. -/
def atoiDigits (cs : List Char) : Nat :=
  cs.foldl (fun a c => a * 10 + (c.toNat - 48)) 0

/-- The access-technology codes accepted by the `switch` in
`queryAndParseAtCops`: `NONE` (-1) and the 3GPP codes 0-9. -/
def actRecognized (a : Int) : Prop := a = -1 ∨ (0 ≤ a ∧ a ≤ 9)

instance (a : Int) : Decidable (actRecognized a) := by
  unfold actRecognized; infer_instance

/-- Embeds `SaraNcpClient::queryAndParseAtCops`, entered after the `+COPS?` scan
succeeded with country code `mcc`, network code `mnc` (digit strings of
up to 3 characters) and access technology `act`: validates the MNC digit
count before any identity update, records the two-digit-MNC flag, stores
the numeric codes, applies the R410 LTE remap and validates the code. -/
def queryAndParseAtCops (s : Client) (mcc mnc : List Char) (act : Int) : Client × Int :=
  let mncDigits := min mnc.length 4
  if ¬(mncDigits = 2 ∨ mncDigits = 3) then (s, SYSTEM_ERROR_BAD_DATA)
  else
    let flags := if mncDigits = 2 then s.cgi_.cgi_flags ||| CGI_FLAG_TWO_DIGIT_MNC
      else s.cgi_.cgi_flags &&& 254
    let cgi0 := { s.cgi_ with cgi_flags := flags }
    let cgi1 := { cgi0 with mobile_country_code := atoiDigits mcc % 65536, mobile_network_code := atoiDigits mnc % 65536 }
    let s1 := { s with cgi_ := cgi1 }
    let act1 := if s1.isR410 = true ∧ act = 7 then 8 else act
    if actRecognized act1 then (s1, SYSTEM_ERROR_NONE) else (s1, SYSTEM_ERROR_BAD_DATA)

/-- A registration line dispatched to one of the three URC handlers, with
its parse results. -/
inductive RegUrc
| creg (r v0 v1 v2 v3 : Nat)
| cgreg (r v0 v1 v2 v3 : Nat)
| cereg (r v0 v1 v2 v3 : Nat)

/-- Dispatch one line to its handler; the result code is dropped, as in
`AtParser::processUrc`. -/
def dispatchUrc (openOk : Bool) (s : Client) (u : RegUrc) : Client :=
  match u with
  | RegUrc.creg r v0 v1 v2 v3 => (cregUrc openOk s r v0 v1 v2 v3).1
  | RegUrc.cgreg r v0 v1 v2 v3 => (cgregUrc openOk s r v0 v1 v2 v3).1
  | RegUrc.cereg r v0 v1 v2 v3 => (ceregUrc openOk s r v0 v1 v2 v3).1

/-- Dispatch a list of pending lines in order. -/
def dispatchUrcs (openOk : Bool) (s : Client) (us : List RegUrc) : Client :=
  us.foldl (dispatchUrc openOk) s

/-- Oracle for the external AT engine during `processEventsImpl`: the
PPP-channel open result, the pending notifications drained by
`processUrc`, and for each registration-status query the lines of its
response (dispatched through the same handlers) and its final result
code. -/
structure AtEnv where
  openOk : Bool
  drainUrcs : List RegUrc
  pollCreg : List RegUrc × Int
  pollGreg : List RegUrc × Int
  pollEreg : List RegUrc × Int

/-- First phase of `processEventsImpl`: drain pending URCs and re-run the
reconciliation step. -/
def peStage1 (env : AtEnv) (s : Client) : Client :=
  checkRegistrationState env.openOk (dispatchUrcs env.openOk s env.drainUrcs)

/-- The `SCOPE_GUARD` of `processEventsImpl`: refresh the last-poll
timestamp on exit. -/
def peGuard (s : Client) : Client :=
  { s with regCheckTime_ := s.t % W }

/-- The registration-status query phase of `processEventsImpl`: `+CREG?`
and `+CGREG?` for U201, `+CEREG?` for R410, each under `CHECK_PARSER_OK`
(a negative result records a parser error and propagates; a non-`OK`
result becomes `SYSTEM_ERROR_AT_NOT_OK`). Returns the state and the early
exit code, if any. -/
def pePolls (env : AtEnv) (s : Client) : Client × Option Int :=
  if s.isR410 = true then
    let s1 := dispatchUrcs env.openOk s env.pollEreg.1
    if env.pollEreg.2 < 0 then ({ s1 with parserError_ := env.pollEreg.2 }, some env.pollEreg.2)
    else if env.pollEreg.2 ≠ AT_RESPONSE_OK then (s1, some SYSTEM_ERROR_AT_NOT_OK)
    else (s1, none)
  else
    let s1 := dispatchUrcs env.openOk s env.pollCreg.1
    if env.pollCreg.2 < 0 then ({ s1 with parserError_ := env.pollCreg.2 }, some env.pollCreg.2)
    else if env.pollCreg.2 ≠ AT_RESPONSE_OK then (s1, some SYSTEM_ERROR_AT_NOT_OK)
    else
      let s2 := dispatchUrcs env.openOk s1 env.pollGreg.1
      if env.pollGreg.2 < 0 then ({ s2 with parserError_ := env.pollGreg.2 }, some env.pollGreg.2)
      else if env.pollGreg.2 ≠ AT_RESPONSE_OK then (s2, some SYSTEM_ERROR_AT_NOT_OK)
      else (s2, none)

/-- The graceful-then-forced power sequence of the watchdog: attempt
`modemPowerOff` and fall back to `modemHardReset(true)` when it fails. -/
def peCut (hw : HW) (s1 : Client) : Client :=
  if (modemPowerOff hw s1).2 ≠ 0 then (modemHardReset hw true (modemPowerOff hw s1).1).1
  else (modemPowerOff hw s1).1

/-- The recovery sequence of the watchdog: stop the muxer, run the power
sequence, transition to `OFF`, and let the scope guard refresh the
last-poll timestamp. -/
def peReset (hw : HW) (openOk : Bool) (s : Client) : Client :=
  peGuard (ncpStateSet openOk (peCut hw { s with muxStops := s.muxStops + 1 }) NcpState.off)

/-- The watchdog tail of `processEventsImpl`: if still connecting and the
time since the attempt started reaches the registration timeout, stop the
muxer, attempt a graceful power-off, fall back to a hard reset on failure
and transition to `OFF`. -/
def peTimeout (hw : HW) (openOk : Bool) (s : Client) : Client × Int :=
  if s.connState_ = NcpConnectionState.connecting ∧
      s.registrationTimeout_ ≤ wsub s.t s.regStartTime_ then
    (peReset hw openOk s, 0)
  else (peGuard s, 0)

/-- Embeds `SaraNcpClient::processEventsImpl`. -/
def processEventsImpl (hw : HW) (env : AtEnv) (s : Client) : Client × Int :=
  if s.ncpState_ ≠ NcpState.on then (s, SYSTEM_ERROR_INVALID_STATE)
  else if (peStage1 env s).connState_ ≠ NcpConnectionState.connecting ∨
      wsub (peStage1 env s).t (peStage1 env s).regCheckTime_ < REGISTRATION_CHECK_INTERVAL then
    (peStage1 env s, 0)
  else
    match pePolls env (peStage1 env s) with
    | (s2, some e) => (peGuard s2, e)
    | (s2, none) => peTimeout hw env.openOk s2

/-- A concrete client state used by the evaluation witnesses: R410 with the
memory-issue firmware absent, `ON`/`CONNECTING`, fresh identity sentinels,
clock at 700000 ms. -/
def c0 : Client where
  ncpState_ := NcpState.on
  prevNcpState_ := NcpState.off
  connState_ := NcpConnectionState.connecting
  creg_ := RegistrationState.notRegistered
  cgreg_ := RegistrationState.notRegistered
  cereg_ := RegistrationState.notRegistered
  regStartTime_ := 0
  regCheckTime_ := 0
  powerOnTime_ := 0
  registeredTime_ := 0
  memoryIssuePresent_ := false
  ready_ := true
  registrationTimeout_ := 600000
  parserError_ := 0
  cgi_ := { mobile_country_code := 0, mobile_network_code := 0, location_area_code := 65535, cell_id := 4294967295, cgi_flags := 0 }
  act_ := 0
  bytesInWindow_ := 0
  lastWindow_ := 0
  fwVersion_ := 200
  isR410 := true
  t := 700000
  pwrPulses := 0
  rstPulses := 0
  muxStops := 0
  pppOpens := 0
  muxWrites := []
  bufen := true
  serialEnabled := true
  muxStreamEnabled := true
  offOnceDone := false

lemma connectionStateSet_pres (ok : Bool) (s : Client) (st : NcpConnectionState) :
    (connectionStateSet ok s st).ncpState_ = s.ncpState_ ∧
    (connectionStateSet ok s st).prevNcpState_ = s.prevNcpState_ ∧
    (connectionStateSet ok s st).cgi_ = s.cgi_ ∧
    (connectionStateSet ok s st).act_ = s.act_ ∧
    (connectionStateSet ok s st).t = s.t ∧
    (connectionStateSet ok s st).muxStops = s.muxStops ∧
    (connectionStateSet ok s st).rstPulses = s.rstPulses ∧
    (connectionStateSet ok s st).pwrPulses = s.pwrPulses ∧
    (connectionStateSet ok s st).registrationTimeout_ = s.registrationTimeout_ ∧
    (connectionStateSet ok s st).isR410 = s.isR410 := by
  unfold connectionStateSet
  split_ifs <;> simp

lemma checkRegistrationState_pres (ok : Bool) (s : Client) :
    (checkRegistrationState ok s).ncpState_ = s.ncpState_ ∧
    (checkRegistrationState ok s).prevNcpState_ = s.prevNcpState_ ∧
    (checkRegistrationState ok s).cgi_ = s.cgi_ ∧
    (checkRegistrationState ok s).act_ = s.act_ ∧
    (checkRegistrationState ok s).t = s.t ∧
    (checkRegistrationState ok s).muxStops = s.muxStops ∧
    (checkRegistrationState ok s).rstPulses = s.rstPulses ∧
    (checkRegistrationState ok s).pwrPulses = s.pwrPulses ∧
    (checkRegistrationState ok s).registrationTimeout_ = s.registrationTimeout_ ∧
    (checkRegistrationState ok s).isR410 = s.isR410 := by
  unfold checkRegistrationState
  split_ifs <;>
    simp [connectionStateSet_pres]

lemma connectionStateSet_ncp (ok : Bool) (s : Client) (st : NcpConnectionState) :
    (connectionStateSet ok s st).ncpState_ = s.ncpState_ :=
  (connectionStateSet_pres ok s st).1

lemma connectionStateSet_cgi (ok : Bool) (s : Client) (st : NcpConnectionState) :
    (connectionStateSet ok s st).cgi_ = s.cgi_ :=
  (connectionStateSet_pres ok s st).2.2.1

lemma connectionStateSet_act (ok : Bool) (s : Client) (st : NcpConnectionState) :
    (connectionStateSet ok s st).act_ = s.act_ :=
  (connectionStateSet_pres ok s st).2.2.2.1

lemma checkRegistrationState_ncp (ok : Bool) (s : Client) :
    (checkRegistrationState ok s).ncpState_ = s.ncpState_ :=
  (checkRegistrationState_pres ok s).1

lemma checkRegistrationState_cgi (ok : Bool) (s : Client) :
    (checkRegistrationState ok s).cgi_ = s.cgi_ :=
  (checkRegistrationState_pres ok s).2.2.1

lemma checkRegistrationState_act (ok : Bool) (s : Client) :
    (checkRegistrationState ok s).act_ = s.act_ :=
  (checkRegistrationState_pres ok s).2.2.2.1

lemma cregUrc_ncp (ok : Bool) (s : Client) (r v0 v1 v2 v3 : Nat) :
    ((cregUrc ok s r v0 v1 v2 v3).1).ncpState_ = s.ncpState_ := by
  unfold cregUrc
  split_ifs <;> simp [checkRegistrationState_ncp, apply_ite]

lemma cgregUrc_ncp (ok : Bool) (s : Client) (r v0 v1 v2 v3 : Nat) :
    ((cgregUrc ok s r v0 v1 v2 v3).1).ncpState_ = s.ncpState_ := by
  unfold cgregUrc
  split_ifs <;> simp [checkRegistrationState_ncp, apply_ite]

lemma ceregUrc_ncp (ok : Bool) (s : Client) (r v0 v1 v2 v3 : Nat) :
    ((ceregUrc ok s r v0 v1 v2 v3).1).ncpState_ = s.ncpState_ := by
  unfold ceregUrc
  split_ifs <;> simp [checkRegistrationState_ncp, apply_ite]

lemma dispatchUrc_ncp (ok : Bool) (s : Client) (u : RegUrc) :
    (dispatchUrc ok s u).ncpState_ = s.ncpState_ := by
  cases u <;> simp [dispatchUrc, cregUrc_ncp, cgregUrc_ncp, ceregUrc_ncp]

lemma dispatchUrcs_ncp (ok : Bool) (us : List RegUrc) (s : Client) :
    (dispatchUrcs ok s us).ncpState_ = s.ncpState_ := by
  induction us generalizing s with
  | nil => rfl
  | cons u us ih => rw [dispatchUrcs, List.foldl_cons, ← dispatchUrcs, ih, dispatchUrc_ncp]

lemma peStage1_ncp (env : AtEnv) (s : Client) :
    (peStage1 env s).ncpState_ = s.ncpState_ := by
  rw [peStage1, checkRegistrationState_ncp, dispatchUrcs_ncp]

lemma pePolls_ncp (env : AtEnv) (s : Client) :
    ((pePolls env s).1).ncpState_ = s.ncpState_ := by
  unfold pePolls
  split_ifs <;> simp [dispatchUrcs_ncp]

lemma waitForPowerOff_pres (hw : HW) (s : Client) :
    (waitForPowerOff hw s).ncpState_ = s.ncpState_ ∧
    (waitForPowerOff hw s).prevNcpState_ = s.prevNcpState_ ∧
    (waitForPowerOff hw s).connState_ = s.connState_ ∧
    (waitForPowerOff hw s).ready_ = s.ready_ ∧
    (waitForPowerOff hw s).serialEnabled = s.serialEnabled ∧
    (waitForPowerOff hw s).muxStreamEnabled = s.muxStreamEnabled ∧
    (waitForPowerOff hw s).muxStops = s.muxStops ∧
    (waitForPowerOff hw s).rstPulses = s.rstPulses ∧
    (waitForPowerOff hw s).pwrPulses = s.pwrPulses ∧
    (waitForPowerOff hw s).pppOpens = s.pppOpens ∧
    (waitForPowerOff hw s).bufen = s.bufen := by
  simp [waitForPowerOff]

lemma modemPowerOnAux_pres (hw : HW) (s : Client) :
    (modemPowerOnAux hw s).ncpState_ = s.ncpState_ ∧
    (modemPowerOnAux hw s).prevNcpState_ = s.prevNcpState_ ∧
    (modemPowerOnAux hw s).connState_ = s.connState_ ∧
    (modemPowerOnAux hw s).ready_ = s.ready_ ∧
    (modemPowerOnAux hw s).serialEnabled = s.serialEnabled ∧
    (modemPowerOnAux hw s).muxStreamEnabled = s.muxStreamEnabled ∧
    (modemPowerOnAux hw s).muxStops = s.muxStops ∧
    (modemPowerOnAux hw s).rstPulses = s.rstPulses ∧
    (modemPowerOnAux hw s).pppOpens = s.pppOpens ∧
    (modemPowerOnAux hw s).bufen = s.bufen := by
  unfold modemPowerOnAux
  split_ifs <;> simp

lemma powerOffOnce_pres (hw : HW) (s : Client) :
    (powerOffOnce hw s).ncpState_ = s.ncpState_ ∧
    (powerOffOnce hw s).prevNcpState_ = s.prevNcpState_ ∧
    (powerOffOnce hw s).connState_ = s.connState_ ∧
    (powerOffOnce hw s).ready_ = s.ready_ ∧
    (powerOffOnce hw s).serialEnabled = s.serialEnabled ∧
    (powerOffOnce hw s).muxStreamEnabled = s.muxStreamEnabled ∧
    (powerOffOnce hw s).muxStops = s.muxStops ∧
    (powerOffOnce hw s).rstPulses = s.rstPulses ∧
    (powerOffOnce hw s).pwrPulses = s.pwrPulses ∧
    (powerOffOnce hw s).pppOpens = s.pppOpens ∧
    (powerOffOnce hw s).bufen = s.bufen := by
  unfold powerOffOnce
  split_ifs <;> simp

lemma powerOffPulse_pres (hw : HW) (s : Client) :
    (powerOffPulse hw s).ncpState_ = s.ncpState_ ∧
    (powerOffPulse hw s).prevNcpState_ = s.prevNcpState_ ∧
    (powerOffPulse hw s).connState_ = s.connState_ ∧
    (powerOffPulse hw s).ready_ = s.ready_ ∧
    (powerOffPulse hw s).serialEnabled = s.serialEnabled ∧
    (powerOffPulse hw s).muxStreamEnabled = s.muxStreamEnabled ∧
    (powerOffPulse hw s).muxStops = s.muxStops ∧
    (powerOffPulse hw s).rstPulses = s.rstPulses ∧
    (powerOffPulse hw s).pppOpens = s.pppOpens ∧
    (powerOffPulse hw s).bufen = false := by
  simp only [powerOffPulse]
  split_ifs <;> simp [waitForPowerOff_pres]

lemma modemPowerOffAux_pres (hw : HW) (s : Client) :
    (modemPowerOffAux hw s).ncpState_ = s.ncpState_ ∧
    (modemPowerOffAux hw s).prevNcpState_ = s.prevNcpState_ ∧
    (modemPowerOffAux hw s).connState_ = s.connState_ ∧
    (modemPowerOffAux hw s).ready_ = s.ready_ ∧
    (modemPowerOffAux hw s).serialEnabled = s.serialEnabled ∧
    (modemPowerOffAux hw s).muxStreamEnabled = s.muxStreamEnabled ∧
    (modemPowerOffAux hw s).muxStops = s.muxStops ∧
    (modemPowerOffAux hw s).rstPulses = s.rstPulses ∧
    (modemPowerOffAux hw s).pppOpens = s.pppOpens ∧
    ((modemPowerOffAux hw s).bufen = s.bufen ∨ (modemPowerOffAux hw s).bufen = false) := by
  unfold modemPowerOffAux
  split_ifs <;> simp [powerOffOnce_pres, powerOffPulse_pres]

lemma modemHardReset_pres (hw : HW) (b : Bool) (s : Client) :
    ((modemHardReset hw b s).1).ncpState_ = s.ncpState_ ∧
    ((modemHardReset hw b s).1).prevNcpState_ = s.prevNcpState_ ∧
    ((modemHardReset hw b s).1).connState_ = s.connState_ ∧
    ((modemHardReset hw b s).1).ready_ = s.ready_ ∧
    ((modemHardReset hw b s).1).serialEnabled = s.serialEnabled ∧
    ((modemHardReset hw b s).1).muxStreamEnabled = s.muxStreamEnabled ∧
    ((modemHardReset hw b s).1).muxStops = s.muxStops ∧
    ((modemHardReset hw b s).1).pppOpens = s.pppOpens ∧
    ((modemHardReset hw b s).1).bufen = s.bufen := by
  unfold modemHardReset modemPowerOn
  split_ifs <;> simp [modemPowerOnAux_pres, waitForPowerOff_pres, apply_ite]

lemma modemPowerOn_fst (hw : HW) (s : Client) :
    (modemPowerOn hw s).1 = modemPowerOnAux hw s := by
  unfold modemPowerOn
  split_ifs <;> rfl

lemma modemPowerOn_code (hw : HW) (s : Client) :
    ((modemPowerOn hw s).2 = SYSTEM_ERROR_NONE ↔ hw.vint (modemPowerOnAux hw s).t = true) := by
  unfold modemPowerOn
  split_ifs with h <;> simp [h, SYSTEM_ERROR_NONE, SYSTEM_ERROR_INVALID_STATE]

lemma modemPowerOff_fst (hw : HW) (s : Client) :
    (modemPowerOff hw s).1 = modemPowerOffAux hw s := by
  unfold modemPowerOff
  split_ifs <;> rfl

lemma modemPowerOff_code (hw : HW) (s : Client) :
    ((modemPowerOff hw s).2 = SYSTEM_ERROR_NONE ↔ hw.vint (modemPowerOffAux hw s).t = false) := by
  unfold modemPowerOff
  split_ifs with h <;> simp [h, SYSTEM_ERROR_NONE, SYSTEM_ERROR_INVALID_STATE]

lemma pollVint_allFalse (hw : HW) (h : ∀ x, hw.vint x = false) :
    ∀ fuel t, pollVint hw fuel true t = (t + 100 * fuel, false) := by
  intro fuel
  induction fuel with
  | zero => intro t; simp [pollVint]
  | succ n ih =>
    intro t
    rw [pollVint]
    simp only [h, Bool.false_eq_true, if_false, ih]
    simp [Prod.ext_iff]
    omega

lemma pollVint_allTrue (hw : HW) (h : ∀ x, hw.vint x = true) :
    ∀ fuel t, pollVint hw fuel false t = (t + 100 * fuel, false) := by
  intro fuel
  induction fuel with
  | zero => intro t; simp [pollVint]
  | succ n ih =>
    intro t
    rw [pollVint]
    simp only [h, Bool.true_eq_false, if_false, ih]
    simp [Prod.ext_iff]
    omega

lemma modemPowerOff_allOn (hw : HW) (s : Client) (h : ∀ x, hw.vint x = true) :
    (modemPowerOff hw s).2 = SYSTEM_ERROR_INVALID_STATE := by
  unfold modemPowerOff
  simp [h]

lemma modemPowerOff_allOff (hw : HW) (s : Client) (h : ∀ x, hw.vint x = false) :
    (modemPowerOff hw s).2 = SYSTEM_ERROR_NONE ∧
    (modemPowerOff hw s).1.pwrPulses = s.pwrPulses ∧
    (modemPowerOff hw s).1.rstPulses = s.rstPulses := by
  refine ⟨(modemPowerOff_code hw s).2 (h _), ?_, ?_⟩ <;>
    rw [modemPowerOff_fst] <;>
    unfold modemPowerOffAux <;>
    simp [h, powerOffOnce_pres]

lemma modemHardReset_allOn (hw : HW) (s : Client) (h : ∀ x, hw.vint x = true) :
    ((modemHardReset hw true s).1).rstPulses = s.rstPulses + 1 := by
  unfold modemHardReset
  split_ifs with h1 h2 <;> simp_all [waitForPowerOff_pres, apply_ite]

lemma modemHardReset_rst (hw : HW) (b : Bool) (s : Client) :
    ((modemHardReset hw b s).1).rstPulses = s.rstPulses ∨
    ((modemHardReset hw b s).1).rstPulses = s.rstPulses + 1 := by
  unfold modemHardReset modemPowerOn
  split_ifs <;> simp [modemPowerOnAux_pres, waitForPowerOff_pres, apply_ite]

lemma ncpStateSet_off (ok : Bool) (s : Client) (h : s.ncpState_ ≠ NcpState.disabled) :
    (ncpStateSet ok s NcpState.off).ncpState_ = NcpState.off ∧
    (ncpStateSet ok s NcpState.off).connState_ = NcpConnectionState.disconnected ∧
    (ncpStateSet ok s NcpState.off).ready_ = false ∧
    (ncpStateSet ok s NcpState.off).muxStops = s.muxStops ∧
    (ncpStateSet ok s NcpState.off).rstPulses = s.rstPulses ∧
    (ncpStateSet ok s NcpState.off).pwrPulses = s.pwrPulses ∧
    (ncpStateSet ok s NcpState.off).pppOpens = s.pppOpens ∧
    (ncpStateSet ok s NcpState.off).bufen = s.bufen ∧
    (ncpStateSet ok s NcpState.off).serialEnabled = s.serialEnabled ∧
    (ncpStateSet ok s NcpState.off).muxStreamEnabled = s.muxStreamEnabled := by
  by_cases hc : s.connState_ = NcpConnectionState.disconnected <;>
    rcases hn : s.ncpState_ <;>
    simp_all [ncpStateSet, connectionStateSet]

lemma offTail (hw : HW) (ok : Bool) (s2 : Client) (h2 : s2.ncpState_ ≠ NcpState.disabled) :
    (ncpStateSet ok { (modemPowerOff hw s2).1 with ready_ := false } NcpState.off).ncpState_ =
      NcpState.off ∧
    (ncpStateSet ok { (modemPowerOff hw s2).1 with ready_ := false } NcpState.off).connState_ =
      NcpConnectionState.disconnected ∧
    (ncpStateSet ok { (modemPowerOff hw s2).1 with ready_ := false } NcpState.off).ready_ = false ∧
    (ncpStateSet ok { (modemPowerOff hw s2).1 with ready_ := false } NcpState.off).muxStops =
      s2.muxStops ∧
    (ncpStateSet ok { (modemPowerOff hw s2).1 with ready_ := false } NcpState.off).serialEnabled =
      s2.serialEnabled ∧
    (ncpStateSet ok { (modemPowerOff hw s2).1 with ready_ := false } NcpState.off).muxStreamEnabled =
      s2.muxStreamEnabled ∧
    ((ncpStateSet ok { (modemPowerOff hw s2).1 with ready_ := false } NcpState.off).bufen =
        s2.bufen ∨
      (ncpStateSet ok { (modemPowerOff hw s2).1 with ready_ := false } NcpState.off).bufen =
        false) := by
  rw [modemPowerOff_fst]
  have hp := modemPowerOffAux_pres hw s2
  set X := modemPowerOffAux hw s2 with hX
  have hne : ({ X with ready_ := false } : Client).ncpState_ ≠ NcpState.disabled := by
    simpa [hp.1] using h2
  have ho := ncpStateSet_off ok { X with ready_ := false } hne
  refine ⟨ho.1, ho.2.1, ho.2.2.1, ?_, ?_, ?_, ?_⟩
  · rw [ho.2.2.2.1]
    simpa using hp.2.2.2.2.2.2.1
  · rw [ho.2.2.2.2.2.2.2.2.1]
    simpa using hp.2.2.2.2.1
  · rw [ho.2.2.2.2.2.2.2.2.2]
    simpa using hp.2.2.2.2.2.1
  · rw [ho.2.2.2.2.2.2.2.1]
    rcases hp.2.2.2.2.2.2.2.2.2 with hb | hb
    · left
      simpa using hb
    · right
      simpa using hb

lemma off_eq (hw : HW) (ok : Bool) (s : Client) (h : s.ncpState_ ≠ NcpState.disabled) :
    off hw ok s =
      (ncpStateSet ok
        { (modemPowerOff hw { s with muxStops := s.muxStops + 1, bufen := false }).1 with
          ready_ := false } NcpState.off, SYSTEM_ERROR_NONE) := by
  unfold off
  rw [if_neg h]

lemma off_behavior (hw : HW) (ok : Bool) (s : Client) (h : s.ncpState_ ≠ NcpState.disabled) :
    (off hw ok s).2 = SYSTEM_ERROR_NONE ∧
    (off hw ok s).1.ncpState_ = NcpState.off ∧
    (off hw ok s).1.connState_ = NcpConnectionState.disconnected ∧
    (off hw ok s).1.ready_ = false ∧
    (off hw ok s).1.bufen = false ∧
    (off hw ok s).1.muxStops = s.muxStops + 1 ∧
    (off hw ok s).1.serialEnabled = s.serialEnabled ∧
    (off hw ok s).1.muxStreamEnabled = s.muxStreamEnabled := by
  rw [off_eq hw ok s h]
  have ht := offTail hw ok { s with muxStops := s.muxStops + 1, bufen := false } (by simpa using h)
  refine ⟨rfl, ht.1, ht.2.1, ht.2.2.1, ?_, ?_, ?_, ?_⟩
  · rcases ht.2.2.2.2.2.2 with hb | hb <;> simpa using hb
  · simpa using ht.2.2.2.1
  · simpa using ht.2.2.2.2.1
  · simpa using ht.2.2.2.2.2.1

lemma testBit_or_one (x : Nat) : (x ||| 1).testBit 0 = true := by
  rw [Nat.testBit_or]
  simp [show Nat.testBit 1 0 = true from by decide]

lemma testBit_and_254 (x : Nat) : (x &&& 254).testBit 0 = false := by
  rw [Nat.testBit_and]
  simp [show Nat.testBit 254 0 = false from by decide]

/-- C9: for every requested timeout value `t`, `setRegistrationTimeout t`
sets the effective registration timeout to `max t 600000` and returns
success: a caller can raise the timeout above the 10-minute default but
never lower it below that default. -/
theorem C9_setRegistrationTimeout (s : Client) (t : Nat) :
    (setRegistrationTimeout s t).2 = SYSTEM_ERROR_NONE ∧
    (setRegistrationTimeout s t).1.registrationTimeout_ = max t REGISTRATION_TIMEOUT ∧
    REGISTRATION_TIMEOUT ≤ (setRegistrationTimeout s t).1.registrationTimeout_ ∧
    (REGISTRATION_TIMEOUT ≤ t → (setRegistrationTimeout s t).1.registrationTimeout_ = t) := by
  refine ⟨rfl, rfl, ?_, ?_⟩
  · simp [setRegistrationTimeout]
  · intro h
    simp [setRegistrationTimeout, Nat.max_eq_left h]

/-- Evaluation witness for C9: 700000 ms is above the default and is kept;
100 ms is below the default and is raised to it. -/
theorem C9_witness :
    (setRegistrationTimeout c0 700000).1.registrationTimeout_ = 700000 ∧
    REGISTRATION_TIMEOUT ≤ (setRegistrationTimeout c0 100).1.registrationTimeout_ := by
  exact ⟨(C9_setRegistrationTimeout c0 700000).2.2.2 (by decide),
    (C9_setRegistrationTimeout c0 100).2.2.1⟩

/-- C8: after a successful operator scan, the MNC digit count is checked
before any identity update (anything other than 2 or 3 digits fails with
bad-data and leaves the client unchanged); a 2-digit MNC sets the
two-digit flag, a 3-digit MNC clears it, and the numeric code is stored,
so the original digit count round-trips. -/
theorem C8_mncDigitCount (s : Client) (mcc mnc : List Char) (act : Int) :
    (min mnc.length 4 = 2 →
      (queryAndParseAtCops s mcc mnc act).1.cgi_.cgi_flags =
        (s.cgi_.cgi_flags ||| CGI_FLAG_TWO_DIGIT_MNC) ∧
      ((queryAndParseAtCops s mcc mnc act).1.cgi_.cgi_flags).testBit 0 = true ∧
      (queryAndParseAtCops s mcc mnc act).1.cgi_.mobile_network_code =
        atoiDigits mnc % 65536) ∧
    (min mnc.length 4 = 3 →
      (queryAndParseAtCops s mcc mnc act).1.cgi_.cgi_flags = (s.cgi_.cgi_flags &&& 254) ∧
      ((queryAndParseAtCops s mcc mnc act).1.cgi_.cgi_flags).testBit 0 = false ∧
      (queryAndParseAtCops s mcc mnc act).1.cgi_.mobile_network_code =
        atoiDigits mnc % 65536) ∧
    (¬(min mnc.length 4 = 2 ∨ min mnc.length 4 = 3) →
      queryAndParseAtCops s mcc mnc act = (s, SYSTEM_ERROR_BAD_DATA)) := by
  refine ⟨?_, ?_, ?_⟩
  · intro h
    unfold queryAndParseAtCops
    rw [if_neg (by simp [h])]
    simp only [h]
    split_ifs <;>
      simp_all [CGI_FLAG_TWO_DIGIT_MNC, testBit_or_one]
  · intro h
    unfold queryAndParseAtCops
    rw [if_neg (by simp [h])]
    simp only [h]
    split_ifs <;>
      simp_all [testBit_and_254]
  · intro h
    unfold queryAndParseAtCops
    rw [if_pos h]

/-- Evaluation witness for C8: the MNC string 08 is stored as the number 8
with the two-digit flag set; 260 is stored as 260 with the flag clear;
a 1-digit MNC fails with bad-data and changes nothing. -/
theorem C8_witness :
    (queryAndParseAtCops c0 (['3', '1', '0']) (['0', '8']) 7).1.cgi_.mobile_network_code = 8 ∧
    ((queryAndParseAtCops c0 (['3', '1', '0']) (['0', '8']) 7).1.cgi_.cgi_flags).testBit 0 =
      true ∧
    (queryAndParseAtCops c0 (['3', '1', '0']) (['2', '6', '0']) 7).1.cgi_.mobile_network_code =
      260 ∧
    ((queryAndParseAtCops c0 (['3', '1', '0']) (['2', '6', '0']) 7).1.cgi_.cgi_flags).testBit
      0 = false ∧
    queryAndParseAtCops c0 (['3', '1', '0']) (['7']) 7 = (c0, SYSTEM_ERROR_BAD_DATA) := by
  have h2 := (C8_mncDigitCount c0 (['3', '1', '0']) (['0', '8']) 7).1 (by decide)
  have h3 := (C8_mncDigitCount c0 (['3', '1', '0']) (['2', '6', '0']) 7).2.1 (by decide)
  have h1 := (C8_mncDigitCount c0 (['3', '1', '0']) (['7']) 7).2.2 (by decide)
  refine ⟨?_, h2.2.1, ?_, h3.2.1, h1⟩
  · rw [h2.2.2]
    decide
  · rw [h3.2.2]
    decide

/-- Client state for the C4 counterexample: R410 with firmware 200 (in the
rate-limited range), a fresh 50 ms window (`lastWindow_` equals the
current time) and an empty byte counter. -/
def c4state : Client := { c0 with lastWindow_ := 700000 }

/-- Counterexample to C4 as stated: a single 600-byte write inside one
50 ms window is forwarded to the muxer in full (600 bytes, not 512), the
byte counter reads 600 and the call returns success, so the claim that
exactly the bytes in excess of the 512-byte threshold are dropped (600
bytes in a window means the first 512 accepted and the rest dropped) is
false: the threshold is checked before a write is counted and writes are
never split. -/
theorem C4_counterexample :
    (dataChannelWrite c4state 0 600).2 = 0 ∧
    (dataChannelWrite c4state 0 600).1.muxWrites = [600] ∧
    (dataChannelWrite c4state 0 600).1.bytesInWindow_ = 600 ∧
    ¬ (dataChannelWrite c4state 0 600).1.bytesInWindow_ = 512 := by
  decide

set_option maxHeartbeats 1000000

/-- C4 amended: on the rate-limited chip family and firmware range,
`dataChannelWrite` keeps a 50 ms window with a cumulative byte counter;
a write arriving while the counter already reached 512 is dropped whole
(nothing is passed to the muxer) and reported as success 0; a write
arriving while the counter is below 512 is forwarded in full, even when
it pushes the cumulative count past 512; once 50 ms have elapsed since
the window start the counter resets and writes are accepted again; other
chip configurations always forward. -/
theorem C4_flowControlWindow (s : Client) (wr : Int) (size : Nat) :
    (s.isR410 = true → s.fwVersion_ ≤ UBLOX_NCP_R4_APP_FW_VERSION_NO_HW_FLOW_CONTROL_MAX →
      wsub s.t s.lastWindow_ < UBLOX_NCP_R4_WINDOW_SIZE_MS →
      UBLOX_NCP_R4_BYTES_PER_WINDOW_THRESHOLD ≤ s.bytesInWindow_ →
      dataChannelWrite s wr size = (s, 0)) ∧
    (s.isR410 = true → s.fwVersion_ ≤ UBLOX_NCP_R4_APP_FW_VERSION_NO_HW_FLOW_CONTROL_MAX →
      wsub s.t s.lastWindow_ < UBLOX_NCP_R4_WINDOW_SIZE_MS →
      s.bytesInWindow_ < UBLOX_NCP_R4_BYTES_PER_WINDOW_THRESHOLD → wr = 0 →
      (dataChannelWrite s wr size).2 = 0 ∧
      (dataChannelWrite s wr size).1.muxWrites = s.muxWrites ++ [size] ∧
      (dataChannelWrite s wr size).1.bytesInWindow_ = s.bytesInWindow_ + size) ∧
    (s.isR410 = true → s.fwVersion_ ≤ UBLOX_NCP_R4_APP_FW_VERSION_NO_HW_FLOW_CONTROL_MAX →
      UBLOX_NCP_R4_WINDOW_SIZE_MS ≤ wsub s.t s.lastWindow_ → wr = 0 →
      (dataChannelWrite s wr size).2 = 0 ∧
      (dataChannelWrite s wr size).1.muxWrites = s.muxWrites ++ [size] ∧
      (dataChannelWrite s wr size).1.bytesInWindow_ = size) ∧
    (s.isR410 = false → wr = 0 →
      (dataChannelWrite s wr size).2 = 0 ∧
      (dataChannelWrite s wr size).1.muxWrites = s.muxWrites ++ [size] ∧
      (dataChannelWrite s wr size).1.bytesInWindow_ = s.bytesInWindow_) := by
  refine ⟨?_, ?_, ?_, ?_⟩
  · intro h1 h2 h3 h4
    simp only [dataChannelWrite]
    split_ifs <;>
      (try simp_all [GSM0710_ERROR_FLOW_CONTROL, UBLOX_NCP_R4_BYTES_PER_WINDOW_THRESHOLD,
        UBLOX_NCP_R4_WINDOW_SIZE_MS]) <;>
      (try omega)
  · intro h1 h2 h3 h4 h5
    subst h5
    simp only [dataChannelWrite]
    split_ifs <;>
      (try simp_all [GSM0710_ERROR_FLOW_CONTROL, UBLOX_NCP_R4_BYTES_PER_WINDOW_THRESHOLD,
        UBLOX_NCP_R4_WINDOW_SIZE_MS]) <;>
      (try omega)
  · intro h1 h2 h3 h4
    subst h4
    simp only [dataChannelWrite]
    split_ifs <;>
      (try simp_all [GSM0710_ERROR_FLOW_CONTROL, UBLOX_NCP_R4_BYTES_PER_WINDOW_THRESHOLD,
        UBLOX_NCP_R4_WINDOW_SIZE_MS]) <;>
      (try omega)
  · intro h1 h2
    subst h2
    simp only [dataChannelWrite]
    split_ifs <;>
      (try simp_all [GSM0710_ERROR_FLOW_CONTROL, UBLOX_NCP_R4_BYTES_PER_WINDOW_THRESHOLD,
        UBLOX_NCP_R4_WINDOW_SIZE_MS]) <;>
      (try omega)

set_option maxHeartbeats 200000

/-- Evaluation witness for C4 amended: in a fresh window a 300-byte write
is forwarded; after 600 bytes have accumulated, a further write is
dropped whole with success; on the non-limited family the same write
always goes through. -/
theorem C4_flowControlWindow_witness :
    (dataChannelWrite c4state 0 300).1.muxWrites = [300] ∧
    dataChannelWrite { c4state with bytesInWindow_ := 600 } 0 44 =
      ({ c4state with bytesInWindow_ := 600 }, 0) ∧
    (dataChannelWrite { c4state with isR410 := false } 0 600).1.muxWrites = [600] := by
  have h1 := (C4_flowControlWindow c4state 0 300).2.1 rfl (by decide) (by decide) (by decide)
    rfl
  have h2 := (C4_flowControlWindow { c4state with bytesInWindow_ := 600 } 0 44).1 rfl
    (by decide) (by decide) (by decide)
  have h3 := (C4_flowControlWindow { c4state with isR410 := false } 0 600).2.2.2 rfl rfl
  refine ⟨?_, h2, ?_⟩
  · rw [h1.2.1]
    decide
  · rw [h3.2.1]
    decide

/-- Client state for the C2 counterexample: identity already captured with
a real location area code 5 and cell id 6; disconnected so the
reconciliation step is inert. -/
def c2state : Client := { c0 with connState_ := NcpConnectionState.disconnected, cgi_ := { c0.cgi_ with location_area_code := 5, cell_id := 6 } }

/-- Counterexample to C2 as stated: the `+CEREG` handler, given a
notification from its own LTE family whose area/cell fields carry the
unset sentinels, overwrites the previously captured real values (5 and 6)
with the sentinels — so an identity field set from a real value IS
overwritten by a later notification carrying the unset sentinel: the
CGREG/CEREG handlers never check whether the fields are still unset (only
the CREG handler does, and that one never checks the technology family). -/
theorem C2_counterexample :
    c2state.cgi_.location_area_code = 5 ∧
    ¬ c2state.cgi_.location_area_code = LAC_UNSET ∧
    isLteRat 7 ∧
    (ceregUrc true c2state 4 1 65535 4294967295 7).1.cgi_.location_area_code = LAC_UNSET ∧
    (ceregUrc true c2state 4 1 65535 4294967295 7).1.cgi_.cell_id = CID_UNSET := by
  refine ⟨rfl, by decide, by decide, ?_, ?_⟩ <;> decide

/-- C2 amended: the three handlers follow two different overwrite
policies. The `+CREG` handler overwrites the location/cell fields only
while BOTH still hold the unset sentinel, but regardless of the reported
access technology; the `+CGREG` and `+CEREG` handlers overwrite the
fields whenever the reported (or, with fewer than 4 fields, the current)
access technology belongs to their family (GSM/UMTS codes 0-6 for CGREG,
LTE codes 7-9 for CEREG), regardless of whether the fields were already
set; in every other case the identity is untouched. -/
theorem C2_identityUpdatePolicy (ok : Bool) (s : Client) (r v0 v1 v2 v3 : Nat) (hr : 1 ≤ r) :
    ((3 ≤ r ∧ s.cgi_.location_area_code = LAC_UNSET ∧ s.cgi_.cell_id = CID_UNSET) →
      (cregUrc ok s r v0 v1 v2 v3).1.cgi_.location_area_code = v1 % 65536 ∧
      (cregUrc ok s r v0 v1 v2 v3).1.cgi_.cell_id = v2 % W) ∧
    (¬(3 ≤ r ∧ s.cgi_.location_area_code = LAC_UNSET ∧ s.cgi_.cell_id = CID_UNSET) →
      (cregUrc ok s r v0 v1 v2 v3).1.cgi_ = s.cgi_) ∧
    ((3 ≤ r ∧ isGsmRat (if 4 ≤ r then (v3 : Int) else s.act_)) →
      (cgregUrc ok s r v0 v1 v2 v3).1.cgi_.location_area_code = v1 % 65536 ∧
      (cgregUrc ok s r v0 v1 v2 v3).1.cgi_.cell_id = v2 % W) ∧
    (¬(3 ≤ r ∧ isGsmRat (if 4 ≤ r then (v3 : Int) else s.act_)) →
      (cgregUrc ok s r v0 v1 v2 v3).1.cgi_ = s.cgi_) ∧
    ((3 ≤ r ∧ isLteRat (if 4 ≤ r then (v3 : Int) else s.act_)) →
      (ceregUrc ok s r v0 v1 v2 v3).1.cgi_.location_area_code = v1 % 65536 ∧
      (ceregUrc ok s r v0 v1 v2 v3).1.cgi_.cell_id = v2 % W) ∧
    (¬(3 ≤ r ∧ isLteRat (if 4 ≤ r then (v3 : Int) else s.act_)) →
      (ceregUrc ok s r v0 v1 v2 v3).1.cgi_ = s.cgi_) := by
  have hnr : ¬ r < 1 := by omega
  refine ⟨?_, ?_, ?_, ?_, ?_, ?_⟩ <;>
    intro h <;>
    [skip; skip; skip; skip; skip; skip] <;>
    first
    | (unfold cregUrc
       rw [if_neg hnr]
       simp only [checkRegistrationState_cgi, checkRegistrationState_act]
       split_ifs with hc <;>
         simp_all [checkRegistrationState_cgi, checkRegistrationState_act])
    | (unfold cgregUrc
       rw [if_neg hnr]
       simp only [checkRegistrationState_cgi, checkRegistrationState_act]
       split_ifs with hc <;>
         simp_all [checkRegistrationState_cgi, checkRegistrationState_act])
    | (unfold ceregUrc
       rw [if_neg hnr]
       simp only [checkRegistrationState_cgi, checkRegistrationState_act]
       split_ifs with hc <;>
         simp_all [checkRegistrationState_cgi, checkRegistrationState_act])

/-- Evaluation witness for C2 amended: a CEREG line with 4 fields and LTE
technology overwrites the already-set fields; a CREG line with both
fields already set leaves the identity untouched. -/
theorem C2_identityUpdatePolicy_witness :
    (ceregUrc true c2state 4 1 17 34 7).1.cgi_.location_area_code = 17 ∧
    (cregUrc true c2state 4 1 17 34 7).1.cgi_ = c2state.cgi_ := by
  have h1 := (C2_identityUpdatePolicy true c2state 4 1 17 34 7 (by decide)).2.2.2.2.1
    (by decide)
  have h2 := (C2_identityUpdatePolicy true c2state 4 1 17 34 7 (by decide)).2.1 (by decide)
  exact ⟨by rw [h1.1], h2⟩

/-- C10: `disable()` on an already-disabled client changes nothing, so the
previous state recorded by the first `disable()` of a run of consecutive
calls is preserved; `enable()` while not disabled succeeds and changes
nothing; `enable()` after a `disable()` re-enables the serial and muxed
streams and always leaves the client `OFF` (the saved state is restored
only transiently before `off()` runs), never directly back `ON`. -/
theorem C10_enableDisable (hw : HW) (ok : Bool) (s : Client) :
    (s.ncpState_ = NcpState.disabled → disable s = s) ∧
    (s.ncpState_ ≠ NcpState.disabled →
      disable (disable s) = disable s ∧ (disable s).prevNcpState_ = s.ncpState_) ∧
    (s.ncpState_ ≠ NcpState.disabled → enable hw ok s = (s, SYSTEM_ERROR_NONE)) ∧
    (s.ncpState_ ≠ NcpState.disabled →
      (enable hw ok (disable s)).2 = SYSTEM_ERROR_NONE ∧
      (enable hw ok (disable s)).1.ncpState_ = NcpState.off ∧
      (enable hw ok (disable s)).1.connState_ = NcpConnectionState.disconnected ∧
      (enable hw ok (disable s)).1.serialEnabled = true ∧
      (enable hw ok (disable s)).1.muxStreamEnabled = true) := by
  refine ⟨?_, ?_, ?_, ?_⟩
  · intro h
    unfold disable
    rw [if_pos h]
  · intro h
    unfold disable
    rw [if_neg h]
    simp
  · intro h
    unfold enable
    rw [if_pos h]
  · intro h
    have hd : disable s =
        { { s with prevNcpState_ := s.ncpState_, ncpState_ := NcpState.disabled } with
          serialEnabled := false, muxStreamEnabled := false } := by
      unfold disable
      rw [if_neg h]
    rw [hd]
    unfold enable
    rw [if_neg (by simp)]
    have hb := off_behavior hw ok
      { { { { s with prevNcpState_ := s.ncpState_, ncpState_ := NcpState.disabled } with
          serialEnabled := false, muxStreamEnabled := false } with
          serialEnabled := true, muxStreamEnabled := true } with ncpState_ := s.ncpState_ }
      (by simpa using h)
    refine ⟨rfl, hb.2.1, hb.2.2.1, ?_, ?_⟩
    · rw [hb.2.2.2.2.2.2.1]
    · rw [hb.2.2.2.2.2.2.2]

/-- Evaluation witness for C10: from the concrete `ON` client, a second
`disable()` is a no-op, and `enable()` after `disable()` lands in `OFF`
with the streams re-enabled (the modem reads as already off). -/
theorem C10_witness :
    disable (disable c0) = disable c0 ∧
    (enable (HW.mk (fun _ => false) false) true (disable c0)).1.ncpState_ = NcpState.off ∧
    (enable (HW.mk (fun _ => false) false) true (disable c0)).1.serialEnabled = true := by
  have h := C10_enableDisable (HW.mk (fun _ => false) false) true c0
  exact ⟨(h.2.1 (by decide)).1, (h.2.2.2 (by decide)).2.1, (h.2.2.2 (by decide)).2.2.2.1⟩

/-- C7: `on()` while already `ON` returns success with no side effects and
fails with invalid-state while `DISABLED` (for every hardware environment
and boot sequence); `off()` from any state except `DISABLED` stops the
muxer, disables the voltage translator, powers the modem off, and
unconditionally transitions to `OFF` returning success regardless of
intermediate errors; `off()` while `DISABLED` fails with invalid-state. -/
theorem C7_onOff (hw : HW) (wr : Client → Client × Int) (ok : Bool) (s : Client) :
    (s.ncpState_ = NcpState.on → onFn hw wr s = (s, SYSTEM_ERROR_NONE)) ∧
    (s.ncpState_ = NcpState.disabled → onFn hw wr s = (s, SYSTEM_ERROR_INVALID_STATE)) ∧
    (s.ncpState_ ≠ NcpState.disabled →
      (off hw ok s).2 = SYSTEM_ERROR_NONE ∧
      (off hw ok s).1.ncpState_ = NcpState.off ∧
      (off hw ok s).1.connState_ = NcpConnectionState.disconnected ∧
      (off hw ok s).1.ready_ = false ∧
      (off hw ok s).1.bufen = false ∧
      (off hw ok s).1.muxStops = s.muxStops + 1) ∧
    (s.ncpState_ = NcpState.disabled → off hw ok s = (s, SYSTEM_ERROR_INVALID_STATE)) := by
  refine ⟨?_, ?_, ?_, ?_⟩
  · intro h
    unfold onFn
    rw [if_neg (by simp [h]), if_pos h]
  · intro h
    unfold onFn
    rw [if_pos h]
  · intro h
    have hb := off_behavior hw ok s h
    exact ⟨hb.1, hb.2.1, hb.2.2.1, hb.2.2.2.1, hb.2.2.2.2.1, hb.2.2.2.2.2.1⟩
  · intro h
    unfold off
    rw [if_pos h]

/-- Evaluation witness for C7: on the concrete `ON` client `on()` is a
no-op returning success; after `disable()` it fails with invalid-state;
`off()` ends `OFF`/disconnected with success. -/
theorem C7_witness :
    onFn (HW.mk (fun _ => false) false) (fun s => (s, 0)) c0 = (c0, SYSTEM_ERROR_NONE) ∧
    onFn (HW.mk (fun _ => false) false) (fun s => (s, 0)) (disable c0) =
      (disable c0, SYSTEM_ERROR_INVALID_STATE) ∧
    (off (HW.mk (fun _ => false) false) true c0).2 = SYSTEM_ERROR_NONE ∧
    (off (HW.mk (fun _ => false) false) true c0).1.ncpState_ = NcpState.off := by
  have h1 := C7_onOff (HW.mk (fun _ => false) false) (fun s => (s, 0)) true c0
  have h2 := C7_onOff (HW.mk (fun _ => false) false) (fun s => (s, 0)) true (disable c0)
  exact ⟨h1.1 (by decide), h2.2.1 (by decide), (h1.2.2.1 (by decide)).1,
    (h1.2.2.1 (by decide)).2.1⟩

lemma checkReg_ppp (ok : Bool) (s : Client)
    (h : s.connState_ ≠ NcpConnectionState.connecting) :
    (checkRegistrationState ok s).pppOpens = s.pppOpens := by
  rcases hc : s.connState_
  · unfold checkRegistrationState
    rw [if_neg (by simp [hc])]
  · exact absurd hc h
  · unfold checkRegistrationState
    rw [if_pos (by simp [hc])]
    by_cases hrc : regCondition s
    · rw [if_pos hrc, if_neg (by simp [hc])]
      unfold connectionStateSet
      split_ifs <;> simp_all
    · rw [if_neg hrc, if_pos hc]
      unfold connectionStateSet
      split_ifs <;> simp_all

/-- C6: inside the `connectionState` setter the data channel is opened
only on a transition into `CONNECTED` (never when disabled or already
connected), and within the reconciliation step only from `CONNECTING`;
when the open fails, `ConnectionState` immediately reverts to
`DISCONNECTED` and the readiness flag is cleared; when it succeeds the
transition to `CONNECTED` stands. -/
theorem C6_dataChannelOnTransition (ok : Bool) (s : Client) (st : NcpConnectionState) :
    ((connectionStateSet ok s st).pppOpens ≠ s.pppOpens →
      st = NcpConnectionState.connected ∧ s.connState_ ≠ NcpConnectionState.connected ∧
      s.ncpState_ ≠ NcpState.disabled) ∧
    ((checkRegistrationState ok s).pppOpens ≠ s.pppOpens →
      s.connState_ = NcpConnectionState.connecting) ∧
    (s.ncpState_ ≠ NcpState.disabled → s.connState_ = NcpConnectionState.connecting →
      (connectionStateSet false s NcpConnectionState.connected).connState_ =
        NcpConnectionState.disconnected ∧
      (connectionStateSet false s NcpConnectionState.connected).ready_ = false ∧
      (connectionStateSet false s NcpConnectionState.connected).pppOpens = s.pppOpens + 1) ∧
    (s.ncpState_ ≠ NcpState.disabled → s.connState_ = NcpConnectionState.connecting →
      (connectionStateSet true s NcpConnectionState.connected).connState_ =
        NcpConnectionState.connected) := by
  refine ⟨?_, ?_, ?_, ?_⟩
  · intro h
    unfold connectionStateSet at h
    split_ifs at h with h1 h2 h3 <;> simp_all
  · intro h
    by_contra hne
    exact h (checkReg_ppp ok s hne)
  · intro h1 h2
    unfold connectionStateSet
    rw [if_neg h1, if_neg (by simp [h2]), if_pos rfl]
    simp
  · intro h1 h2
    unfold connectionStateSet
    rw [if_neg h1, if_neg (by simp [h2]), if_pos rfl]
    simp

/-- Evaluation witness for C6: from the concrete `CONNECTING` client, a
failed channel open reverts to `DISCONNECTED` with readiness cleared and
the open counted; a successful open lands in `CONNECTED`. -/
theorem C6_witness :
    (connectionStateSet false c0 NcpConnectionState.connected).connState_ =
      NcpConnectionState.disconnected ∧
    (connectionStateSet false c0 NcpConnectionState.connected).ready_ = false ∧
    (connectionStateSet false c0 NcpConnectionState.connected).pppOpens = 1 ∧
    (connectionStateSet true c0 NcpConnectionState.connected).connState_ =
      NcpConnectionState.connected := by
  have h := C6_dataChannelOnTransition false c0 NcpConnectionState.connected
  have h4 := C6_dataChannelOnTransition true c0 NcpConnectionState.connected
  have h3 := h.2.2.1 (by decide) (by decide)
  exact ⟨h3.1, h3.2.1, h3.2.2, h4.2.2.2 (by decide) (by decide)⟩

/-- C1: while `NcpState = ON` and the connection is not already
`DISCONNECTED` (and the data channel opens successfully), the
reconciliation step leaves `ConnectionState = CONNECTED` iff
(circuit-switched registered AND packet-switched registered) OR LTE
registered; when the condition fails while currently `CONNECTED`, it
demotes to `CONNECTING` and refreshes the watchdog attempt-start and
last-poll timestamps and clears the last-registered timestamp; and under
the system invariant that `OFF` implies `DISCONNECTED`, a transition into
`CONNECTED` can only happen while `ON` from `CONNECTING` with the
condition true. -/
theorem C1_checkRegistrationState (ok : Bool) (s : Client) :
    (s.ncpState_ = NcpState.on → s.connState_ ≠ NcpConnectionState.disconnected →
      ((checkRegistrationState true s).connState_ = NcpConnectionState.connected ↔
        regCondition s)) ∧
    (s.ncpState_ = NcpState.on → s.connState_ = NcpConnectionState.connected →
      ¬ regCondition s →
      (checkRegistrationState ok s).connState_ = NcpConnectionState.connecting ∧
      (checkRegistrationState ok s).regStartTime_ = s.t % W ∧
      (checkRegistrationState ok s).regCheckTime_ = s.t % W ∧
      (checkRegistrationState ok s).registeredTime_ = 0) ∧
    ((s.ncpState_ = NcpState.off → s.connState_ = NcpConnectionState.disconnected) →
      s.connState_ ≠ NcpConnectionState.connected →
      (checkRegistrationState ok s).connState_ = NcpConnectionState.connected →
      s.ncpState_ = NcpState.on ∧ s.connState_ = NcpConnectionState.connecting ∧
      regCondition s) := by
  refine ⟨?_, ?_, ?_⟩
  · intro hn hc
    by_cases hrc : regCondition s <;>
      rcases hcs : s.connState_ <;>
      simp_all [checkRegistrationState, connectionStateSet, apply_ite, hn]
  · intro hn hc hrc
    unfold checkRegistrationState
    rw [if_pos (by simp [hc]), if_neg hrc, if_pos hc]
    unfold connectionStateSet
    rw [if_neg (by simp [hn]), if_neg (by simp [hc]), if_neg (by simp)]
    simp [connectionStateSet_pres]
  · intro hinv hnc hres
    rcases hn : s.ncpState_ <;> rcases hcs : s.connState_ <;>
      by_cases hrc : regCondition s <;>
      simp_all [checkRegistrationState, connectionStateSet, apply_ite]

/-- Evaluation witness for C1: on the concrete `CONNECTING` client the
LTE flag alone promotes to `CONNECTED`; with no flags set the state stays
un-promoted; from `CONNECTED` with no flags it demotes to `CONNECTING`
and resets the watchdog timestamps. -/
theorem C1_witness :
    (checkRegistrationState true
      { c0 with cereg_ := RegistrationState.registered }).connState_ =
      NcpConnectionState.connected ∧
    ¬ (checkRegistrationState true c0).connState_ = NcpConnectionState.connected ∧
    (checkRegistrationState true
      { c0 with connState_ := NcpConnectionState.connected }).connState_ =
      NcpConnectionState.connecting ∧
    (checkRegistrationState true
      { c0 with connState_ := NcpConnectionState.connected }).regStartTime_ = 700000 ∧
    (checkRegistrationState true
      { c0 with connState_ := NcpConnectionState.connected }).registeredTime_ = 0 := by
  have h1 := (C1_checkRegistrationState true
    { c0 with cereg_ := RegistrationState.registered }).1 (by decide) (by decide)
  have h2 := (C1_checkRegistrationState true c0).1 (by decide) (by decide)
  have h3 := (C1_checkRegistrationState true
    { c0 with connState_ := NcpConnectionState.connected }).2.1 (by decide) (by decide)
    (by decide)
  refine ⟨h1.2 (by decide), ?_, h3.1, ?_, h3.2.2.2⟩
  · intro hx
    exact absurd (h2.1 hx) (by decide)
  · rw [h3.2.1]
    decide

lemma waitForPowerOff_once (hw : HW) (s : Client) :
    (waitForPowerOff hw s).offOnceDone = s.offOnceDone := by
  simp [waitForPowerOff]

lemma powerOffPulse_once (hw : HW) (s : Client) :
    (powerOffPulse hw s).offOnceDone = s.offOnceDone := by
  simp only [powerOffPulse]
  split_ifs <;> simp [waitForPowerOff_once]

lemma powerOffOnce_once (hw : HW) (s : Client) :
    (powerOffOnce hw s).offOnceDone = true := by
  unfold powerOffOnce
  split_ifs <;> simp_all

lemma modemPowerOffAux_once (hw : HW) (s : Client) :
    (modemPowerOffAux hw s).offOnceDone = true := by
  unfold modemPowerOffAux
  split_ifs <;> simp [powerOffPulse_once, powerOffOnce_once]

lemma modemPowerOnAux_noop (hw : HW) (s : Client) (h : hw.vint s.t = true) :
    modemPowerOnAux hw s = s := by
  unfold modemPowerOnAux
  rw [if_pos h]

lemma powerOffOnce_vintFalse (hw : HW) (s : Client) (h : hw.vint s.t = false) :
    (powerOffOnce hw s).t = s.t ∧ (powerOffOnce hw s).pwrPulses = s.pwrPulses := by
  unfold powerOffOnce
  split_ifs <;> simp_all

lemma modemPowerOffAux_noop (hw : HW) (s : Client) (h1 : s.offOnceDone = true)
    (h2 : hw.vint s.t = false) :
    modemPowerOffAux hw s = s := by
  have ho : powerOffOnce hw s = s := by
    unfold powerOffOnce
    rw [if_neg (by simp [h1])]
  unfold modemPowerOffAux
  rw [ho, if_neg (by simp [h2])]

/-- C5: `modemPowerOn` and `modemPowerOff` are idempotent. Each checks the
power-good input first: when the modem is already in the target state the
call returns success without issuing any pulse, so a second call right
after a successful one is the identity on the observable state (same
power-good reading, no duplicate pulse); when power-good never reaches
the target level the call fails with invalid-state after the bounded poll
(power-on: one pulse and 10 x 100 ms of polling after the chip-family
pulse delay; power-off: the 100 x 100 ms poll). -/
theorem C5_powerIdempotent (hw : HW) (s : Client) :
    (hw.vint s.t = true → modemPowerOn hw s = (s, SYSTEM_ERROR_NONE)) ∧
    ((modemPowerOn hw s).2 = SYSTEM_ERROR_NONE →
      modemPowerOn hw (modemPowerOn hw s).1 = ((modemPowerOn hw s).1, SYSTEM_ERROR_NONE)) ∧
    ((∀ x, hw.vint x = false) →
      (modemPowerOn hw s).2 = SYSTEM_ERROR_INVALID_STATE ∧
      (modemPowerOn hw s).1.pwrPulses = s.pwrPulses + 1 ∧
      ((modemPowerOn hw s).1.t = s.t + 1150 ∨ (modemPowerOn hw s).1.t = s.t + 1000)) ∧
    (hw.vint s.t = false →
      (modemPowerOff hw s).2 = SYSTEM_ERROR_NONE ∧
      (modemPowerOff hw s).1.pwrPulses = s.pwrPulses) ∧
    ((modemPowerOff hw s).2 = SYSTEM_ERROR_NONE →
      modemPowerOff hw (modemPowerOff hw s).1 = ((modemPowerOff hw s).1, SYSTEM_ERROR_NONE)) ∧
    ((∀ x, hw.vint x = true) → (modemPowerOff hw s).2 = SYSTEM_ERROR_INVALID_STATE) := by
  refine ⟨?_, ?_, ?_, ?_, ?_, ?_⟩
  · intro h
    unfold modemPowerOn
    rw [modemPowerOnAux_noop hw s h, if_pos h]
  · intro h
    have hv := (modemPowerOn_code hw s).1 h
    have ha := modemPowerOnAux_noop hw (modemPowerOnAux hw s) hv
    rw [modemPowerOn_fst]
    unfold modemPowerOn
    rw [ha, if_pos hv]
  · intro h
    refine ⟨?_, ?_, ?_⟩
    · unfold modemPowerOn
      rw [if_neg (by simp [h])]
    · rw [modemPowerOn_fst]
      unfold modemPowerOnAux
      rw [if_neg (by simp [h])]
      split_ifs <;> simp
    · rw [modemPowerOn_fst]
      unfold modemPowerOnAux
      rw [if_neg (by simp [h])]
      split_ifs <;> simp [pollVint_allFalse hw h] <;> omega
  · intro h
    have hot := powerOffOnce_vintFalse hw s h
    have haux : modemPowerOffAux hw s = powerOffOnce hw s := by
      unfold modemPowerOffAux
      rw [if_neg (by rw [hot.1, h]; simp)]
    refine ⟨?_, ?_⟩
    · exact (modemPowerOff_code hw s).2 (by rw [haux, hot.1, h])
    · rw [modemPowerOff_fst, haux, hot.2]
  · intro h
    have hv := (modemPowerOff_code hw s).1 h
    have ha := modemPowerOffAux_noop hw (modemPowerOffAux hw s) (modemPowerOffAux_once hw s) hv
    rw [modemPowerOff_fst]
    unfold modemPowerOff
    rw [ha, if_pos hv]
  · intro h
    exact modemPowerOff_allOn hw s h

/-- Evaluation witness for C5: with the modem reading as on, `powerOn` is
a no-op success; with it reading as off, `powerOff` succeeds and a second
`powerOff` is the identity; `powerOn` against a dead power-good input
issues exactly one pulse; `powerOff` against a stuck-high input fails
with invalid-state. -/
theorem C5_witness :
    modemPowerOn (HW.mk (fun _ => true) false) c0 = (c0, SYSTEM_ERROR_NONE) ∧
    (modemPowerOff (HW.mk (fun _ => false) false) c0).2 = SYSTEM_ERROR_NONE ∧
    modemPowerOff (HW.mk (fun _ => false) false)
        ((modemPowerOff (HW.mk (fun _ => false) false) c0).1) =
      ((modemPowerOff (HW.mk (fun _ => false) false) c0).1, SYSTEM_ERROR_NONE) ∧
    (modemPowerOn (HW.mk (fun _ => false) false) c0).1.pwrPulses = 1 ∧
    (modemPowerOff (HW.mk (fun _ => true) false) c0).2 = SYSTEM_ERROR_INVALID_STATE := by
  have hT := C5_powerIdempotent (HW.mk (fun _ => true) false) c0
  have hF := C5_powerIdempotent (HW.mk (fun _ => false) false) c0
  refine ⟨hT.1 rfl, (hF.2.2.2.1 rfl).1, hF.2.2.2.2.1 (hF.2.2.2.1 rfl).1, ?_,
    hT.2.2.2.2.2 (fun _ => rfl)⟩
  rw [(hF.2.2.1 (fun _ => rfl)).2.1]
  decide

lemma peCut_pres (hw : HW) (s1 : Client) :
    (peCut hw s1).ncpState_ = s1.ncpState_ ∧ (peCut hw s1).muxStops = s1.muxStops := by
  unfold peCut
  split_ifs <;>
    simp [modemPowerOff_fst, modemPowerOffAux_pres, modemHardReset_pres]

lemma peCut_allOff (hw : HW) (s1 : Client) (h : ∀ x, hw.vint x = false) :
    (peCut hw s1).rstPulses = s1.rstPulses ∧ (peCut hw s1).pwrPulses = s1.pwrPulses := by
  have h0 := modemPowerOff_allOff hw s1 h
  unfold peCut
  rw [if_neg (by rw [h0.1]; simp [SYSTEM_ERROR_NONE])]
  exact ⟨h0.2.2, h0.2.1⟩

lemma peCut_allOn (hw : HW) (s1 : Client) (h : ∀ x, hw.vint x = true) :
    (peCut hw s1).rstPulses = s1.rstPulses + 1 := by
  have h0 := modemPowerOff_allOn hw s1 h
  unfold peCut
  rw [if_pos (by rw [h0]; decide)]
  rw [modemHardReset_allOn hw ((modemPowerOff hw s1).1) h, modemPowerOff_fst]
  simp [modemPowerOffAux_pres]

lemma peReset_facts (hw : HW) (ok : Bool) (s : Client) (hn : s.ncpState_ = NcpState.on) :
    (peReset hw ok s).ncpState_ = NcpState.off ∧
    (peReset hw ok s).connState_ = NcpConnectionState.disconnected ∧
    (peReset hw ok s).ready_ = false ∧
    (peReset hw ok s).muxStops = s.muxStops + 1 ∧
    ((∀ x, hw.vint x = false) →
      (peReset hw ok s).rstPulses = s.rstPulses ∧ (peReset hw ok s).pwrPulses = s.pwrPulses) ∧
    ((∀ x, hw.vint x = true) → (peReset hw ok s).rstPulses = s.rstPulses + 1) := by
  unfold peReset
  have hc := peCut_pres hw { s with muxStops := s.muxStops + 1 }
  have hnc : (peCut hw { s with muxStops := s.muxStops + 1 }).ncpState_ ≠
      NcpState.disabled := by
    rw [hc.1]
    simp [hn]
  have ho := ncpStateSet_off ok (peCut hw { s with muxStops := s.muxStops + 1 }) hnc
  refine ⟨?_, ?_, ?_, ?_, ?_, ?_⟩
  · simp [peGuard, ho.1]
  · simp [peGuard, ho.2.1]
  · simp [peGuard, ho.2.2.1]
  · simp [peGuard, ho.2.2.2.1, hc.2]
  · intro h
    have ha := peCut_allOff hw { s with muxStops := s.muxStops + 1 } h
    constructor
    · simp [peGuard, ho.2.2.2.2.1, ha.1]
    · simp [peGuard, ho.2.2.2.2.2.1, ha.2]
  · intro h
    have ha := peCut_allOn hw { s with muxStops := s.muxStops + 1 } h
    simp [peGuard, ho.2.2.2.2.1, ha]

/-- C3: `processEventsImpl` fails with invalid-state (touching nothing)
unless `NcpState = ON`; after draining notifications and reconciling, it
never resets while `CONNECTED`; and when still `CONNECTING` with at least
15 s since the last poll, the polls succeeding, the state still
`CONNECTING` afterwards and the total time since the attempt started
reaching the registration timeout, it forces recovery: the muxer is
stopped, a graceful power-off is attempted (no pulses when the modem
already reads off), a hard reset pulse is issued iff the power-off fails
(power-good stuck high), `NcpState` ends `OFF` with the connection
`DISCONNECTED` — so the reset fires at most once per continuous
`CONNECTING` period: any immediately following `processEvents` returns
invalid-state without further action. -/
theorem C3_registrationWatchdog (hw : HW) (env : AtEnv) (s : Client) :
    (s.ncpState_ ≠ NcpState.on →
      processEventsImpl hw env s = (s, SYSTEM_ERROR_INVALID_STATE)) ∧
    (s.ncpState_ = NcpState.on →
      (peStage1 env s).connState_ = NcpConnectionState.connected →
      processEventsImpl hw env s = (peStage1 env s, 0)) ∧
    (s.ncpState_ = NcpState.on →
      (peStage1 env s).connState_ = NcpConnectionState.connecting →
      REGISTRATION_CHECK_INTERVAL ≤ wsub (peStage1 env s).t (peStage1 env s).regCheckTime_ →
      (pePolls env (peStage1 env s)).2 = none →
      (pePolls env (peStage1 env s)).1.connState_ = NcpConnectionState.connecting →
      (pePolls env (peStage1 env s)).1.registrationTimeout_ ≤
        wsub (pePolls env (peStage1 env s)).1.t (pePolls env (peStage1 env s)).1.regStartTime_ →
      (processEventsImpl hw env s).2 = 0 ∧
      (processEventsImpl hw env s).1.ncpState_ = NcpState.off ∧
      (processEventsImpl hw env s).1.connState_ = NcpConnectionState.disconnected ∧
      (processEventsImpl hw env s).1.ready_ = false ∧
      (processEventsImpl hw env s).1.muxStops =
        (pePolls env (peStage1 env s)).1.muxStops + 1 ∧
      ((∀ x, hw.vint x = false) →
        (processEventsImpl hw env s).1.rstPulses =
          (pePolls env (peStage1 env s)).1.rstPulses ∧
        (processEventsImpl hw env s).1.pwrPulses =
          (pePolls env (peStage1 env s)).1.pwrPulses) ∧
      ((∀ x, hw.vint x = true) →
        (processEventsImpl hw env s).1.rstPulses =
          (pePolls env (peStage1 env s)).1.rstPulses + 1) ∧
      (∀ envNext, processEventsImpl hw envNext (processEventsImpl hw env s).1 =
        ((processEventsImpl hw env s).1, SYSTEM_ERROR_INVALID_STATE))) := by
  refine ⟨?_, ?_, ?_⟩
  · intro h
    unfold processEventsImpl
    rw [if_pos h]
  · intro h1 h2
    unfold processEventsImpl
    rw [if_neg (by simp [h1]), if_pos (Or.inl (by simp [h2]))]
  · intro h1 h2 h3 h4 h5 h6
    have hpe : pePolls env (peStage1 env s) = ((pePolls env (peStage1 env s)).1, none) := by
      rw [← h4]
    have hre : processEventsImpl hw env s =
        peTimeout hw env.openOk (pePolls env (peStage1 env s)).1 := by
      unfold processEventsImpl
      rw [if_neg (by simp [h1])]
      rw [if_neg (by push_neg; exact ⟨by simp [h2], by omega⟩)]
      rw [hpe]
    rw [hre]
    unfold peTimeout
    rw [if_pos ⟨h5, h6⟩]
    have hn2 : (pePolls env (peStage1 env s)).1.ncpState_ = NcpState.on := by
      rw [pePolls_ncp, peStage1_ncp]
      exact h1
    have hf := peReset_facts hw env.openOk (pePolls env (peStage1 env s)).1 hn2
    refine ⟨rfl, hf.1, hf.2.1, hf.2.2.1, hf.2.2.2.1, hf.2.2.2.2.1, hf.2.2.2.2.2, ?_⟩
    intro envNext
    unfold processEventsImpl
    rw [if_pos (by rw [hf.1]; simp)]

/-- Evaluation witness for C3: the concrete `ON`/`CONNECTING` client at
t = 700000 ms with both watchdog timestamps at 0 and the default
600000 ms timeout, with empty notification queues and successful polls,
on a modem whose power-good input reads off: the watchdog fires, ending
`OFF`/`DISCONNECTED` with the muxer stopped once, the power-off graceful
(no pulses) and a second call returning invalid-state. -/
theorem C3_witness :
    (processEventsImpl (HW.mk (fun _ => false) false)
      (AtEnv.mk true [] ([], 0) ([], 0) ([], 0)) c0).2 = 0 ∧
    (processEventsImpl (HW.mk (fun _ => false) false)
      (AtEnv.mk true [] ([], 0) ([], 0) ([], 0)) c0).1.ncpState_ = NcpState.off ∧
    (processEventsImpl (HW.mk (fun _ => false) false)
      (AtEnv.mk true [] ([], 0) ([], 0) ([], 0)) c0).1.connState_ =
      NcpConnectionState.disconnected ∧
    (processEventsImpl (HW.mk (fun _ => false) false)
      (AtEnv.mk true [] ([], 0) ([], 0) ([], 0)) c0).1.muxStops = 1 ∧
    (processEventsImpl (HW.mk (fun _ => false) false)
      (AtEnv.mk true [] ([], 0) ([], 0) ([], 0)) c0).1.rstPulses = 0 ∧
    processEventsImpl (HW.mk (fun _ => false) false)
        (AtEnv.mk true [] ([], 0) ([], 0) ([], 0))
        (processEventsImpl (HW.mk (fun _ => false) false)
          (AtEnv.mk true [] ([], 0) ([], 0) ([], 0)) c0).1 =
      ((processEventsImpl (HW.mk (fun _ => false) false)
        (AtEnv.mk true [] ([], 0) ([], 0) ([], 0)) c0).1, SYSTEM_ERROR_INVALID_STATE) := by
  have h := (C3_registrationWatchdog (HW.mk (fun _ => false) false)
    (AtEnv.mk true [] ([], 0) ([], 0) ([], 0)) c0).2.2 (by decide) (by decide) (by decide)
    (by decide) (by decide) (by decide)
  refine ⟨h.1, h.2.1, h.2.2.1, ?_, ?_, h.2.2.2.2.2.2.2 (AtEnv.mk true [] ([], 0) ([], 0)
    ([], 0))⟩
  · rw [h.2.2.2.2.1]
    decide
  · rw [(h.2.2.2.2.2.1 (fun _ => rfl)).1]
    decide

end SaraNcp
